import Mathlib

/-!
Verification of the OCR server core (server.cpp) and the client call wrapper
(client). The server owns a mutex-guarded FIFO queue of `OcrTask`s drained by a
fixed pool of worker threads; each task carries a `std::promise<std::string>`
result channel read once by the RPC handler under a bounded wait. The embedding
below models the queue and pool as a labelled transition system (operations
under the queue mutex are atomic steps), the promise as an optional value with
a swallow-exceptions write, and the worker's per-task processing body as a pure
function over the opaque Leptonica/Tesseract capabilities.
-/

-- ===== Data model =================================================================

/-- Fields of `ProcessImageRequest` as read by the server handler and populated by
the client wrapper (`server.cpp` lines 161-168, client `extractFromImage`).
Image bytes are a list of byte values. -/
structure Request where
  client_id : String
  batch_id : String
  filename : String
  image : List Nat
  lang : String
deriving DecidableEq

/-- Fields of `ProcessImageResponse` (`server.cpp` lines 175-189). Protobuf fields
not set by a branch keep their default values. -/
structure Response where
  ok : Bool
  text : String
  message : String
  processing_time_ms : Int
deriving DecidableEq

/-- A fresh protobuf response: all fields at their defaults. -/
def defaultResponse : Response :=
  { ok := false, text := "", message := "", processing_time_ms := 0 }

/-- The `OcrTask` struct of `server.cpp` lines 26-32, without its promise (the
result channel is modelled separately so reader/writer interaction is explicit).
`task_start_time` is the steady-clock creation timestamp in abstract time units. -/
structure OcrTask where
  file_name : String
  language_code : String
  image_data : List Nat
  task_start_time : Nat
deriving DecidableEq

/-- The per-task result channel: a `std::promise<std::string>` / `std::future`
pair. `value` is the stored shared state (none before `set_value`);
`abandoned` records that the reader's `wait_for` deadline expired and the
handler returned without reading. The shared state outlives the reader because
the worker holds a `shared_ptr` to the task. -/
structure ResultChannel where
  value : Option String
  abandoned : Bool
deriving DecidableEq

/-- The worker's write to the channel, `server.cpp` lines 139-141:
`try { current_task->text_promise.set_value(extracted_text); } catch (...) {}`.
A second `set_value` throws `std::future_error`, which the catch-all swallows,
so the write is a no-op when a value is already stored; the function is total
(the write never fails observably), whether or not the reader abandoned. -/
def setValueCaught (ch : ResultChannel) (v : String) : ResultChannel :=
  match ch.value with
  | none => { ch with value := some v }
  | some _ => ch

/-- The reader's deadline expiry: the handler stops waiting and returns; the
stored value (if any) is untouched and will never be read. -/
def abandonChannel (ch : ResultChannel) : ResultChannel :=
  { ch with abandoned := true }

-- ===== Task queue and worker pool as a transition system ==========================

/-- Shared state of `TaskProcessor`: the pending queue (front at the head),
the shutdown flag, and the number of live worker threads, together with
history variables `submitted` and `dequeued` logging the order in which task
identities crossed the queue boundary. Tasks are identified by distinct ids
(distinct `shared_ptr<OcrTask>` objects). -/
structure PoolState where
  pending : List Nat
  shutdown : Bool
  submitted : List Nat
  dequeued : List Nat
  activeWorkers : Nat
deriving DecidableEq

/-- State of `TaskProcessor` right after its constructor (`server.cpp` line 37):
empty queue, shutdown flag false, `worker_count` live workers. -/
def initState (worker_count : Nat) : PoolState :=
  { pending := [], shutdown := false, submitted := [], dequeued := [],
    activeWorkers := worker_count }

/-- The condition-variable predicate a blocked worker waits on
(`server.cpp` lines 84-86): `shutdown_requested_ || !pending_tasks_.empty()`. -/
def wakeCondition (s : PoolState) : Prop :=
  s.shutdown = true ∨ s.pending ≠ []

/-- The loop-exit test a woken worker performs (`server.cpp` line 88):
`shutdown_requested_ && pending_tasks_.empty()`. -/
def exitCondition (s : PoolState) : Prop :=
  s.shutdown = true ∧ s.pending = []

/-- Atomic transitions of the queue/pool monitor. Every mutation of the shared
queue state in `server.cpp` happens under `queue_mutex_`, so each critical
section is one step:
`submit` is `submitTask` (push to the back; the id is a fresh object);
`dequeue` is a worker taking the front after its wait predicate passed with a
non-empty queue (lines 90-91), which needs a live worker;
`stop` is `stopProcessing` setting the shutdown flag (lines 62-63);
`exitWorker` is a worker returning from `processTasks`, allowed exactly when
`shutdown_requested_ && pending_tasks_.empty()` (line 88). -/
inductive PoolStep : PoolState → PoolState → Prop where
  | submit (s : PoolState) (t : Nat) (hfresh : t ∉ s.submitted) :
      PoolStep s { s with pending := s.pending ++ [t], submitted := s.submitted ++ [t] }
  | dequeue (s : PoolState) (t : Nat) (rest : List Nat) (hq : s.pending = t :: rest)
      (hworker : 0 < s.activeWorkers) :
      PoolStep s { s with pending := rest, dequeued := s.dequeued ++ [t] }
  | stop (s : PoolState) :
      PoolStep s { s with shutdown := true }
  | exitWorker (s : PoolState) (hexit : exitCondition s) (hworker : 0 < s.activeWorkers) :
      PoolStep s { s with activeWorkers := s.activeWorkers - 1 }

/-- Reachability along pool steps. -/
def PoolReaches : PoolState → PoolState → Prop :=
  Relation.ReflTransGen PoolStep

/-- Effect of `stopProcessing` (`server.cpp` lines 59-69) on the shared state:
under the lock it returns immediately when the flag is already set, otherwise
sets it. (The subsequent `notify_all` and `join`s move no shared queue data;
their effect is captured by the `exitWorker` transitions they unblock.) -/
def stopProcessing (s : PoolState) : PoolState :=
  if s.shutdown then s else { s with shutdown := true }

-- ===== Worker processing body =====================================================

/-- A C++ exception escaping the decode/recognize region: either a
`std::exception` with its `what()` text, or any other thrown object. -/
inductive Exn where
  | std (what : String)
  | unknown
deriving DecidableEq

/-- The error-marker string built by the catch clauses of `server.cpp`
lines 129-133. -/
def exnText : Exn → String
  | Exn.std what => "ERROR: " ++ what
  | Exn.unknown => "ERROR: unknown exception"

/-- Observable calls the worker body makes into Leptonica/Tesseract, in order. -/
inductive PipeStep where
  | decodeStep
  | grayStep (flag : Nat)
  | enhanceStep (gamma : ℚ) (black white : Nat)
  | recognizeStep
deriving DecidableEq

/-- The body of the worker loop for one task (`server.cpp` lines 100-133),
parameterised by the opaque external capabilities:
`pixReadMem` decodes bytes (null result modelled as `none`, a thrown exception
as `.error`); `pixConvertTo8 _ 0` converts to 8-bit grayscale; `pixGammaTRC`
with destination null applies gamma/contrast enhancement; `getUTF8Text` runs
recognition (null result as `none`, a thrown exception as `.error`). Returns
the trace of external calls made and the final `extracted_text`. -/
def processTask {Pix : Type}
    (pixReadMem : List Nat → Except Exn (Option Pix))
    (pixConvertTo8 : Pix → Nat → Pix)
    (pixGammaTRC : ℚ → Nat → Nat → Pix → Pix)
    (getUTF8Text : Pix → Except Exn (Option String))
    (image_data : List Nat) : List PipeStep × String :=
  match pixReadMem image_data with
  | Except.error e => ([PipeStep.decodeStep], exnText e)
  | Except.ok none => ([PipeStep.decodeStep], "")
  | Except.ok (some image_pix) =>
      let gray_pix := pixConvertTo8 image_pix 0
      let enhanced_pix := pixGammaTRC 1.2 50 180 gray_pix
      match getUTF8Text enhanced_pix with
      | Except.error e =>
          ([PipeStep.decodeStep, PipeStep.grayStep 0, PipeStep.enhanceStep 1.2 50 180,
            PipeStep.recognizeStep], exnText e)
      | Except.ok none =>
          ([PipeStep.decodeStep, PipeStep.grayStep 0, PipeStep.enhanceStep 1.2 50 180,
            PipeStep.recognizeStep], "")
      | Except.ok (some ocr_result) =>
          ([PipeStep.decodeStep, PipeStep.grayStep 0, PipeStep.enhanceStep 1.2 50 180,
            PipeStep.recognizeStep], ocr_result)

/-- A worker serving a sequence of tasks (the `while (true)` loop of
`processTasks`): each iteration runs the body and writes the resulting text to
that task's channel, then continues with the next task; no iteration can
abort the loop because the body is total (all exceptions are caught). -/
def workerDrain {Pix : Type}
    (pixReadMem : List Nat → Except Exn (Option Pix))
    (pixConvertTo8 : Pix → Nat → Pix)
    (pixGammaTRC : ℚ → Nat → Nat → Pix → Pix)
    (getUTF8Text : Pix → Except Exn (Option String)) :
    List (OcrTask × ResultChannel) → List ResultChannel
  | [] => []
  | (task, ch) :: rest =>
      setValueCaught ch
        (processTask pixReadMem pixConvertTo8 pixGammaTRC getUTF8Text task.image_data).2 ::
      workerDrain pixReadMem pixConvertTo8 pixGammaTRC getUTF8Text rest

-- ===== RPC handler ================================================================

/-- The language each worker's recognition engine is initialised with, once at
worker startup (`server.cpp` line 75: `ocr_engine.Init(..., "eng")`). -/
def engineInitLanguage : String := "eng"

/-- The handler's bounded wait on the result future, in seconds
(`server.cpp` line 174: `text_future.wait_for(std::chrono::seconds(120))`). -/
def handlerWaitSeconds : Nat := 120

/-- The server-side wait duration as a function of the deadline the caller
configured on its RPC. The handler never consults the request or the RPC
context deadline when waiting: the literal 120 is hardcoded at line 174. -/
def serverWait (callerDeadlineSeconds : Nat) : Nat :=
  handlerWaitSeconds

/-- The client wrapper's default `max_wait_seconds` argument used for the
transport deadline (client `extractFromImage`, default parameter value 120). -/
def clientDefaultMaxWaitSeconds : Nat := 120

/-- Task construction at request arrival (`server.cpp` lines 164-168):
fields copied from the request, creation timestamp recorded. -/
def buildTask (req : Request) (t0 : Nat) : OcrTask :=
  { file_name := req.filename, language_code := req.lang,
    image_data := req.image, task_start_time := t0 }

/-- Timeout branch of `ProcessImage` (`server.cpp` lines 175-180). -/
def timeoutResponse : Response :=
  { defaultResponse with ok := false, message := "Image processing timeout" }

/-- Completed branch of `ProcessImage` (`server.cpp` lines 183-189): success
flag true, the delivered text, and the elapsed steady-clock milliseconds from
the task's recorded creation time `t0` to the handler-side now `tNow`. -/
def completedResponse (result_text : String) (t0 tNow : Nat) : Response :=
  { defaultResponse with
    ok := true
    text := result_text
    processing_time_ms := (tNow : Int) - (t0 : Int) }

/-- What the handler does when `wait_for` returns `timeout` (`server.cpp`
lines 175-180): it builds the timeout response and returns. It performs no
operation on the queue (the task is not cancelled or removed — no such API is
even called) and never reads or clears the channel; the channel is merely
abandoned. Returns the response together with the untouched pool state and the
abandoned channel. -/
def handleTimeout (qs : PoolState) (ch : ResultChannel) :
    Response × PoolState × ResultChannel :=
  (timeoutResponse, qs, abandonChannel ch)

/-- End-to-end outcome of one `ProcessImage` call against a worker running the
given external capabilities: the task is built from the request at time `t0`;
if the handler's bounded wait expired first (`timedOut`), the timeout response
is returned; otherwise the worker's delivered text is read at handler time
`tNow` and the completed response is built. -/
def serverHandle {Pix : Type}
    (pixReadMem : List Nat → Except Exn (Option Pix))
    (pixConvertTo8 : Pix → Nat → Pix)
    (pixGammaTRC : ℚ → Nat → Nat → Pix → Pix)
    (getUTF8Text : Pix → Except Exn (Option String))
    (req : Request) (t0 tNow : Nat) (timedOut : Bool) : Response :=
  let task := buildTask req t0
  if timedOut then
    timeoutResponse
  else
    completedResponse
      (processTask pixReadMem pixConvertTo8 pixGammaTRC getUTF8Text task.image_data).2
      task.task_start_time tNow

-- ===== Queue/pool invariants ======================================================

/-- One pool step preserves the queue conservation law: the submission log is
exactly the dequeue log followed by the current pending queue. -/
theorem poolStep_conservation {s s₂ : PoolState} (h : PoolStep s s₂)
    (hinv : s.dequeued ++ s.pending = s.submitted) :
    s₂.dequeued ++ s₂.pending = s₂.submitted := by
  cases h with
  | submit t hfresh =>
      rw [← hinv, List.append_assoc]
  | dequeue t rest hq hworker =>
      rw [List.append_assoc, List.singleton_append, ← hq]
      exact hinv
  | stop => exact hinv
  | exitWorker hexit hworker => exact hinv

/-- One pool step preserves distinctness of the submission log. -/
theorem poolStep_nodup {s s₂ : PoolState} (h : PoolStep s s₂)
    (hnd : s.submitted.Nodup) : s₂.submitted.Nodup := by
  cases h with
  | submit t hfresh =>
      simp only [List.nodup_append, List.nodup_cons, List.not_mem_nil, not_false_iff,
        List.nodup_nil, and_true, true_and, List.disjoint_singleton]
      exact ⟨hnd, hfresh⟩
  | dequeue t rest hq hworker => exact hnd
  | stop => exact hnd
  | exitWorker hexit hworker => exact hnd

/-- A task present in the queue or already served stays present or served
across any pool step: tasks leave the pending queue only by being dequeued. -/
theorem poolStep_conserves_mem {s s₂ : PoolState} (h : PoolStep s s₂) (t : Nat)
    (ht : t ∈ s.pending ∨ t ∈ s.dequeued) : t ∈ s₂.pending ∨ t ∈ s₂.dequeued := by
  cases h with
  | submit u hfresh =>
      rcases ht with hp | hd
      · exact Or.inl (List.mem_append_left _ hp)
      · exact Or.inr hd
  | dequeue u rest hq hworker =>
      rcases ht with hp | hd
      · rw [hq] at hp
        rcases List.mem_cons.mp hp with heq | hrest
        · exact Or.inr (List.mem_append_right _ (heq ▸ List.mem_singleton_self u))
        · exact Or.inl hrest
      · exact Or.inr (List.mem_append_left _ hd)
  | stop => exact ht
  | exitWorker hexit hworker => exact ht

/-- Reachability preserves the conservation law and submission distinctness. -/
theorem poolReaches_invariant {s s₂ : PoolState} (h : PoolReaches s s₂)
    (hinv : s.dequeued ++ s.pending = s.submitted) (hnd : s.submitted.Nodup) :
    s₂.dequeued ++ s₂.pending = s₂.submitted ∧ s₂.submitted.Nodup := by
  induction h with
  | refl => exact ⟨hinv, hnd⟩
  | tail hreach hstep ih =>
      exact ⟨poolStep_conservation hstep ih.1, poolStep_nodup hstep ih.2⟩

/-- Reachability conserves queued-or-served membership. -/
theorem poolReaches_conserves_mem {s s₂ : PoolState} (h : PoolReaches s s₂) (t : Nat)
    (ht : t ∈ s.pending ∨ t ∈ s.dequeued) : t ∈ s₂.pending ∨ t ∈ s₂.dequeued := by
  induction h with
  | refl => exact ht
  | tail hreach hstep ih => exact poolStep_conserves_mem hstep t ih

/-- C1. The task queue is strictly FIFO: in every state reachable from a fresh
pool, the dequeue log followed by the pending queue equals the submission log
(so dequeue order is submission order and no task is lost — each submitted
task is still pending or has been dequeued), the submission log is duplicate
free, and the dequeue log is duplicate free (no task is removed twice; each
removal is performed by one worker holding the lock). -/
theorem taskQueue_fifo_no_loss_no_dup (n : Nat) (s : PoolState)
    (h : PoolReaches (initState n) s) :
    s.dequeued ++ s.pending = s.submitted ∧
    (∃ rest, s.dequeued ++ rest = s.submitted) ∧
    s.dequeued.Nodup ∧
    (∀ t, t ∈ s.submitted → t ∈ s.dequeued ∨ t ∈ s.pending) := by
  obtain ⟨hinv, hnd⟩ := poolReaches_invariant h (by simp [initState]) (by simp [initState])
  refine ⟨hinv, ⟨s.pending, hinv⟩, ?_, ?_⟩
  · have hsub : s.dequeued.Sublist s.submitted := hinv ▸ List.sublist_append_left _ _
    exact hsub.nodup hnd
  · intro t ht
    rw [← hinv] at ht
    exact List.mem_append.mp ht

-- ===== Claim theorems: result channel, handler branches ===========================

/-- C1 witness: a concrete pool with one worker, two submitted tasks, one
dequeued, satisfies the FIFO/no-loss/no-duplication invariant. -/
theorem taskQueue_fifo_no_loss_no_dup_witness :
    ([0] : List Nat) ++ [1] = [0, 1] ∧
    (∃ rest, ([0] : List Nat) ++ rest = [0, 1]) ∧
    ([0] : List Nat).Nodup ∧
    (∀ t, t ∈ ([0, 1] : List Nat) → t ∈ ([0] : List Nat) ∨ t ∈ ([1] : List Nat)) :=
  taskQueue_fifo_no_loss_no_dup 1
    { pending := [1], shutdown := false, submitted := [0, 1], dequeued := [0],
      activeWorkers := 1 }
    (Relation.ReflTransGen.tail
      (Relation.ReflTransGen.tail
        (Relation.ReflTransGen.single (PoolStep.submit (initState 1) 0 (by decide)))
        (PoolStep.submit _ 1 (by decide)))
      (PoolStep.dequeue _ 0 [1] rfl (by decide)))

/-- C2. A result channel is written at most once: the first `set_value` stores
the value, a second write attempt is swallowed (the thrown `future_error` is
caught) and leaves the first value in place, and a write after the reader has
abandoned the channel still succeeds without failing — the stored value is
simply never read. -/
theorem resultChannel_write_at_most_once (ch : ResultChannel) (v w : String)
    (h : ch.value = none) :
    (setValueCaught ch v).value = some v ∧
    setValueCaught (setValueCaught ch v) w = setValueCaught ch v ∧
    (setValueCaught (abandonChannel ch) v).value = some v ∧
    (setValueCaught (abandonChannel ch) v).abandoned = true := by
  simp [setValueCaught, abandonChannel, h]

/-- C2 witness: writing "a" then "b" to a fresh channel keeps "a"; writing to
an abandoned fresh channel stores the value. -/
theorem resultChannel_write_at_most_once_witness :
    (setValueCaught ⟨none, false⟩ "a").value = some "a" ∧
    setValueCaught (setValueCaught ⟨none, false⟩ "a") "b" = setValueCaught ⟨none, false⟩ "a" ∧
    (setValueCaught (abandonChannel ⟨none, false⟩) "a").value = some "a" ∧
    (setValueCaught (abandonChannel ⟨none, false⟩) "a").abandoned = true :=
  resultChannel_write_at_most_once ⟨none, false⟩ "a" "b" rfl

/-- C3. When the handler's bounded wait expires, the response has `ok = false`
with the timeout message, the handler leaves the pool state untouched (it
neither cancels nor removes the task) and only abandons the channel, and the
worker's later write to the abandoned channel still stores its result. -/
theorem timeout_response_no_cancel (qs : PoolState) (ch : ResultChannel) (r : String)
    (h : ch.value = none) :
    (handleTimeout qs ch).1.ok = false ∧
    (handleTimeout qs ch).1.message = "Image processing timeout" ∧
    (handleTimeout qs ch).2.1 = qs ∧
    (handleTimeout qs ch).2.2 = abandonChannel ch ∧
    (setValueCaught (handleTimeout qs ch).2.2 r).value = some r := by
  refine ⟨rfl, rfl, rfl, rfl, ?_⟩
  simp [handleTimeout, abandonChannel, setValueCaught, h]

/-- C3 witness: a timed-out request against a fresh pool and channel. -/
theorem timeout_response_no_cancel_witness :
    (handleTimeout (initState 4) ⟨none, false⟩).1.ok = false ∧
    (handleTimeout (initState 4) ⟨none, false⟩).1.message = "Image processing timeout" ∧
    (handleTimeout (initState 4) ⟨none, false⟩).2.1 = initState 4 ∧
    (handleTimeout (initState 4) ⟨none, false⟩).2.2 = abandonChannel ⟨none, false⟩ ∧
    (setValueCaught (handleTimeout (initState 4) ⟨none, false⟩).2.2 "txt").value = some "txt" :=
  timeout_response_no_cancel (initState 4) ⟨none, false⟩ "txt" rfl

/-- C4 counterexample: the server-side wait on the result future does not honor
a caller-configured deadline — with a caller deadline of 30 seconds the handler
still waits its hardcoded 120 seconds. -/
theorem serverWait_ignores_caller_deadline :
    serverWait 30 = 120 ∧ serverWait 30 ≠ 30 := by
  decide

/-- C4 (amended). The handler's bounded wait on the result channel is fixed at
120 seconds regardless of any caller-configured deadline; the 120-second
default that is caller-configurable is the client wrapper's transport
deadline, which the server-side wait does not consult. -/
theorem serverWait_fixed_120 :
    (∀ d, serverWait d = 120) ∧
    handlerWaitSeconds = 120 ∧
    clientDefaultMaxWaitSeconds = 120 :=
  ⟨fun _ => rfl, rfl, rfl⟩

/-- C5. A request whose result arrives before the deadline gets `ok = true`,
the worker's extracted text, and `processing_time_ms` equal to the elapsed
milliseconds from the task's recorded creation timestamp `t0` to the handler's
observation time `tNow`, which is nonnegative since the steady clock is
monotone (`t0 ≤ tNow`). -/
theorem completed_response_fields {Pix : Type}
    (pixReadMem : List Nat → Except Exn (Option Pix))
    (pixConvertTo8 : Pix → Nat → Pix)
    (pixGammaTRC : ℚ → Nat → Nat → Pix → Pix)
    (getUTF8Text : Pix → Except Exn (Option String))
    (req : Request) (t0 tNow : Nat) (h : t0 ≤ tNow) :
    (serverHandle pixReadMem pixConvertTo8 pixGammaTRC getUTF8Text req t0 tNow false).ok
      = true ∧
    (serverHandle pixReadMem pixConvertTo8 pixGammaTRC getUTF8Text req t0 tNow false).text
      = (processTask pixReadMem pixConvertTo8 pixGammaTRC getUTF8Text req.image).2 ∧
    (buildTask req t0).task_start_time = t0 ∧
    (serverHandle pixReadMem pixConvertTo8 pixGammaTRC getUTF8Text req t0
        tNow false).processing_time_ms = (tNow : Int) - (t0 : Int) ∧
    0 ≤ (serverHandle pixReadMem pixConvertTo8 pixGammaTRC getUTF8Text req t0
        tNow false).processing_time_ms := by
  refine ⟨rfl, rfl, rfl, rfl, ?_⟩
  have hle : (t0 : Int) ≤ (tNow : Int) := Int.ofNat_le.mpr h
  simpa [serverHandle, completedResponse, buildTask, defaultResponse] using
    sub_nonneg.mpr hle

/-- C5 witness: a concrete request whose worker recognizes nothing, with
creation time 3 and observation time 10, yields `ok = true` and elapsed 7 ms. -/
theorem completed_response_fields_witness :
    (serverHandle (fun _ => Except.ok (none : Option Unit)) (fun p _ => p)
      (fun _ _ _ p => p) (fun _ => Except.ok none)
      ⟨"cli", "b0", "f.png", [1, 2], "eng"⟩ 3 10 false).ok = true ∧
    (serverHandle (fun _ => Except.ok (none : Option Unit)) (fun p _ => p)
      (fun _ _ _ p => p) (fun _ => Except.ok none)
      ⟨"cli", "b0", "f.png", [1, 2], "eng"⟩ 3 10 false).text
      = (processTask (fun _ => Except.ok (none : Option Unit)) (fun p _ => p)
          (fun _ _ _ p => p) (fun _ => Except.ok none)
          (Request.image ⟨"cli", "b0", "f.png", [1, 2], "eng"⟩)).2 ∧
    (buildTask ⟨"cli", "b0", "f.png", [1, 2], "eng"⟩ 3).task_start_time = 3 ∧
    (serverHandle (fun _ => Except.ok (none : Option Unit)) (fun p _ => p)
      (fun _ _ _ p => p) (fun _ => Except.ok none)
      ⟨"cli", "b0", "f.png", [1, 2], "eng"⟩ 3 10 false).processing_time_ms
      = (10 : Int) - (3 : Int) ∧
    0 ≤ (serverHandle (fun _ => Except.ok (none : Option Unit)) (fun p _ => p)
      (fun _ _ _ p => p) (fun _ => Except.ok none)
      ⟨"cli", "b0", "f.png", [1, 2], "eng"⟩ 3 10 false).processing_time_ms :=
  completed_response_fields (fun _ => Except.ok none) (fun p _ => p) (fun _ _ _ p => p)
    (fun _ => Except.ok none) ⟨"cli", "b0", "f.png", [1, 2], "eng"⟩ 3 10 (by decide)

-- ===== Claim theorems: preprocessing, failure recovery, noninterference ===========

/-- C6. Before every recognition call the worker applies exactly the decode,
grayscale and contrast-enhancement steps, in that fixed order, with the fixed
parameters gamma = 1.2, black point 50, white point 180; and every enhancement
call whatsoever uses exactly those parameters — the processing function offers
no way to alter the steps or their parameters. -/
theorem preprocess_fixed_pipeline {Pix : Type}
    (pixReadMem : List Nat → Except Exn (Option Pix))
    (pixConvertTo8 : Pix → Nat → Pix)
    (pixGammaTRC : ℚ → Nat → Nat → Pix → Pix)
    (getUTF8Text : Pix → Except Exn (Option String))
    (img : List Nat) :
    (PipeStep.recognizeStep
        ∈ (processTask pixReadMem pixConvertTo8 pixGammaTRC getUTF8Text img).1 →
      (processTask pixReadMem pixConvertTo8 pixGammaTRC getUTF8Text img).1
        = [PipeStep.decodeStep, PipeStep.grayStep 0, PipeStep.enhanceStep 1.2 50 180,
           PipeStep.recognizeStep]) ∧
    (∀ g b w, PipeStep.enhanceStep g b w
        ∈ (processTask pixReadMem pixConvertTo8 pixGammaTRC getUTF8Text img).1 →
      g = 1.2 ∧ b = 50 ∧ w = 180) := by
  rcases hdec : pixReadMem img with e | op
  · constructor
    · intro hmem
      simp [processTask, hdec] at hmem
    · intro g b w hmem
      simp [processTask, hdec] at hmem
  · rcases op with _ | p
    · constructor
      · intro hmem
        simp [processTask, hdec] at hmem
      · intro g b w hmem
        simp [processTask, hdec] at hmem
    · rcases hrec : getUTF8Text (pixGammaTRC 1.2 50 180 (pixConvertTo8 p 0)) with e | ot
      · refine ⟨fun _ => ?_, fun g b w hmem => ?_⟩
        · simp [processTask, hdec, hrec]
        · simp [processTask, hdec, hrec] at hmem
          exact hmem
      · rcases ot with _ | s
        · refine ⟨fun _ => ?_, fun g b w hmem => ?_⟩
          · simp [processTask, hdec, hrec]
          · simp [processTask, hdec, hrec] at hmem
            exact hmem
        · refine ⟨fun _ => ?_, fun g b w hmem => ?_⟩
          · simp [processTask, hdec, hrec]
          · simp [processTask, hdec, hrec] at hmem
            exact hmem

/-- C6 witness: with a decoder and recognizer that succeed, the worker's trace
is exactly the fixed four-call pipeline. -/
theorem preprocess_fixed_pipeline_witness :
    (processTask (fun _ => Except.ok (some ())) (fun p _ => p) (fun _ _ _ p => p)
      (fun _ => Except.ok (some "hi")) [0]).1
      = [PipeStep.decodeStep, PipeStep.grayStep 0, PipeStep.enhanceStep 1.2 50 180,
         PipeStep.recognizeStep] :=
  (preprocess_fixed_pipeline (fun _ => Except.ok (some ())) (fun p _ => p)
    (fun _ _ _ p => p) (fun _ => Except.ok (some "hi")) [0]).1 (by decide)

/-- C7. A decode failure (null pixel buffer) is recovered inside the worker:
the delivered text is empty, the handler still answers `ok = true` with empty
text, and the full response is identical to that of a request whose image
decodes but contains no recognizable text — the caller cannot tell the two
apart. -/
theorem decode_failure_indistinguishable {Pix : Type}
    (dec1 dec2 : List Nat → Except Exn (Option Pix))
    (pixConvertTo8 : Pix → Nat → Pix)
    (pixGammaTRC : ℚ → Nat → Nat → Pix → Pix)
    (getUTF8Text : Pix → Except Exn (Option String))
    (req1 req2 : Request) (p : Pix) (t0 tNow : Nat)
    (h1 : dec1 req1.image = Except.ok none)
    (h2 : dec2 req2.image = Except.ok (some p))
    (h3 : getUTF8Text (pixGammaTRC 1.2 50 180 (pixConvertTo8 p 0)) = Except.ok (some "")) :
    (processTask dec1 pixConvertTo8 pixGammaTRC getUTF8Text req1.image).2 = "" ∧
    (serverHandle dec1 pixConvertTo8 pixGammaTRC getUTF8Text req1 t0 tNow false).ok
      = true ∧
    (serverHandle dec1 pixConvertTo8 pixGammaTRC getUTF8Text req1 t0 tNow false).text
      = "" ∧
    serverHandle dec1 pixConvertTo8 pixGammaTRC getUTF8Text req1 t0 tNow false
      = serverHandle dec2 pixConvertTo8 pixGammaTRC getUTF8Text req2 t0 tNow false := by
  have hp1 : (processTask dec1 pixConvertTo8 pixGammaTRC getUTF8Text req1.image).2 = "" := by
    simp [processTask, h1]
  have hp2 : (processTask dec2 pixConvertTo8 pixGammaTRC getUTF8Text req2.image).2 = "" := by
    simp [processTask, h2, h3]
  refine ⟨hp1, rfl, hp1, ?_⟩
  simp [serverHandle, buildTask, completedResponse]
  rw [hp1, hp2]

/-- C7 witness: a concrete undecodable image and a concrete blank-but-valid
image produce the same `ok = true`, empty-text response. -/
theorem decode_failure_indistinguishable_witness :
    (processTask (fun _ => Except.ok (none : Option Unit)) (fun p _ => p)
      (fun _ _ _ p => p) (fun _ => Except.ok (some ""))
      (Request.image ⟨"c", "b", "bad.png", [9], "eng"⟩)).2 = "" ∧
    (serverHandle (fun _ => Except.ok (none : Option Unit)) (fun p _ => p)
      (fun _ _ _ p => p) (fun _ => Except.ok (some ""))
      ⟨"c", "b", "bad.png", [9], "eng"⟩ 0 5 false).ok = true ∧
    (serverHandle (fun _ => Except.ok (none : Option Unit)) (fun p _ => p)
      (fun _ _ _ p => p) (fun _ => Except.ok (some ""))
      ⟨"c", "b", "bad.png", [9], "eng"⟩ 0 5 false).text = "" ∧
    serverHandle (fun _ => Except.ok (none : Option Unit)) (fun p _ => p)
      (fun _ _ _ p => p) (fun _ => Except.ok (some ""))
      ⟨"c", "b", "bad.png", [9], "eng"⟩ 0 5 false
      = serverHandle (fun _ => Except.ok (some ())) (fun p _ => p)
        (fun _ _ _ p => p) (fun _ => Except.ok (some ""))
        ⟨"c", "b", "white10x10.png", [7], "eng"⟩ 0 5 false :=
  decode_failure_indistinguishable (fun _ => Except.ok none) (fun _ => Except.ok (some ()))
    (fun p _ => p) (fun _ _ _ p => p) (fun _ => Except.ok (some ""))
    ⟨"c", "b", "bad.png", [9], "eng"⟩ ⟨"c", "b", "white10x10.png", [7], "eng"⟩ () 0 5
    rfl rfl rfl

/-- C8. A worker survives bad tasks: an exception thrown during decoding or
during recognition is converted into the error-marker string and becomes the
delivered text; the delivered text is written to the task's channel like any
recognized text; and the worker loop goes on to the next task regardless, so a
run over any task list writes exactly one result per task. -/
theorem worker_survives_bad_tasks {Pix : Type}
    (pixReadMem : List Nat → Except Exn (Option Pix))
    (pixConvertTo8 : Pix → Nat → Pix)
    (pixGammaTRC : ℚ → Nat → Nat → Pix → Pix)
    (getUTF8Text : Pix → Except Exn (Option String)) :
    (∀ img e, pixReadMem img = Except.error e →
      (processTask pixReadMem pixConvertTo8 pixGammaTRC getUTF8Text img).2 = exnText e) ∧
    (∀ img p e, pixReadMem img = Except.ok (some p) →
      getUTF8Text (pixGammaTRC 1.2 50 180 (pixConvertTo8 p 0)) = Except.error e →
      (processTask pixReadMem pixConvertTo8 pixGammaTRC getUTF8Text img).2 = exnText e) ∧
    (∀ task ch rest,
      workerDrain pixReadMem pixConvertTo8 pixGammaTRC getUTF8Text ((task, ch) :: rest)
        = setValueCaught ch
            (processTask pixReadMem pixConvertTo8 pixGammaTRC getUTF8Text
              task.image_data).2 ::
          workerDrain pixReadMem pixConvertTo8 pixGammaTRC getUTF8Text rest) ∧
    (∀ (task : OcrTask) (ch : ResultChannel), ch.value = none →
      (setValueCaught ch
        (processTask pixReadMem pixConvertTo8 pixGammaTRC getUTF8Text
          task.image_data).2).value
        = some (processTask pixReadMem pixConvertTo8 pixGammaTRC getUTF8Text
            task.image_data).2) ∧
    (∀ tasks, (workerDrain pixReadMem pixConvertTo8 pixGammaTRC getUTF8Text tasks).length
        = tasks.length) := by
  refine ⟨?_, ?_, ?_, ?_, ?_⟩
  · intro img e he
    simp [processTask, he]
  · intro img p e hdec hrec
    simp [processTask, hdec, hrec]
  · intro task ch rest
    rfl
  · intro task ch hch
    simp [setValueCaught, hch]
  · intro tasks
    induction tasks with
    | nil => rfl
    | cons hd tl ih =>
        obtain ⟨task, ch⟩ := hd
        simp [workerDrain, ih]

/-- C8 witness: a decoder that always throws yields the error-marker text,
the marker is written to a fresh channel, and a two-task run writes two
results. -/
theorem worker_survives_bad_tasks_witness :
    (processTask (fun _ => Except.error (Exn.std "boom")) (fun (p : Unit) _ => p)
      (fun _ _ _ p => p) (fun _ => Except.ok none) [7]).2 = exnText (Exn.std "boom") ∧
    (setValueCaught (⟨none, false⟩ : ResultChannel)
      (processTask (fun _ => Except.error (Exn.std "boom")) (fun (p : Unit) _ => p)
        (fun _ _ _ p => p) (fun _ => Except.ok none)
        (OcrTask.image_data ⟨"f", "eng", [7], 0⟩)).2).value
      = some (processTask (fun _ => Except.error (Exn.std "boom")) (fun (p : Unit) _ => p)
          (fun _ _ _ p => p) (fun _ => Except.ok none)
          (OcrTask.image_data ⟨"f", "eng", [7], 0⟩)).2 ∧
    (workerDrain (fun _ => Except.error (Exn.std "boom")) (fun (p : Unit) _ => p)
      (fun _ _ _ p => p) (fun _ => Except.ok none)
      [(⟨"f", "eng", [7], 0⟩, ⟨none, false⟩), (⟨"g", "eng", [8], 1⟩, ⟨none, false⟩)]).length
      = 2 :=
  ⟨(worker_survives_bad_tasks (fun _ => Except.error (Exn.std "boom"))
      (fun (p : Unit) _ => p) (fun _ _ _ p => p) (fun _ => Except.ok none)).1
      [7] (Exn.std "boom") rfl,
   (worker_survives_bad_tasks (fun _ => Except.error (Exn.std "boom"))
      (fun (p : Unit) _ => p) (fun _ _ _ p => p) (fun _ => Except.ok none)).2.2.2.1
      ⟨"f", "eng", [7], 0⟩ ⟨none, false⟩ rfl,
   (worker_survives_bad_tasks (fun _ => Except.error (Exn.std "boom"))
      (fun (p : Unit) _ => p) (fun _ _ _ p => p) (fun _ => Except.ok none)).2.2.2.2
      [(⟨"f", "eng", [7], 0⟩, ⟨none, false⟩), (⟨"g", "eng", [8], 1⟩, ⟨none, false⟩)]⟩

/-- C10. The request's `lang` field has no effect on the outcome: it is copied
onto the task's `language_code` but never read during processing, and each
worker's engine is initialised once with the fixed language "eng"; two requests
differing only in `lang` receive identical responses in every case. -/
theorem lang_field_noninterference {Pix : Type}
    (pixReadMem : List Nat → Except Exn (Option Pix))
    (pixConvertTo8 : Pix → Nat → Pix)
    (pixGammaTRC : ℚ → Nat → Nat → Pix → Pix)
    (getUTF8Text : Pix → Except Exn (Option String))
    (req1 req2 : Request) (t0 tNow : Nat)
    (hc : req1.client_id = req2.client_id) (hb : req1.batch_id = req2.batch_id)
    (hf : req1.filename = req2.filename) (hi : req1.image = req2.image) :
    (∀ timedOut,
      serverHandle pixReadMem pixConvertTo8 pixGammaTRC getUTF8Text req1 t0 tNow timedOut
        = serverHandle pixReadMem pixConvertTo8 pixGammaTRC getUTF8Text req2 t0 tNow
            timedOut) ∧
    (buildTask req1 t0).language_code = req1.lang ∧
    engineInitLanguage = "eng" := by
  refine ⟨?_, rfl, rfl⟩
  intro timedOut
  cases timedOut
  · simp [serverHandle, buildTask, hi]
  · rfl

/-- C10 witness: two concrete requests identical but for `lang` ("eng" against
"deu") receive the same response. -/
theorem lang_field_noninterference_witness :
    (∀ timedOut,
      serverHandle (fun _ => Except.ok (some ())) (fun p _ => p) (fun _ _ _ p => p)
        (fun _ => Except.ok (some "hello")) ⟨"c", "b", "f.png", [3], "eng"⟩ 2 9 timedOut
        = serverHandle (fun _ => Except.ok (some ())) (fun p _ => p) (fun _ _ _ p => p)
            (fun _ => Except.ok (some "hello")) ⟨"c", "b", "f.png", [3], "deu"⟩ 2 9
            timedOut) ∧
    (buildTask ⟨"c", "b", "f.png", [3], "eng"⟩ 2).language_code
      = Request.lang ⟨"c", "b", "f.png", [3], "eng"⟩ ∧
    engineInitLanguage = "eng" :=
  lang_field_noninterference (fun _ => Except.ok (some ())) (fun p _ => p)
    (fun _ _ _ p => p) (fun _ => Except.ok (some "hello"))
    ⟨"c", "b", "f.png", [3], "eng"⟩ ⟨"c", "b", "f.png", [3], "deu"⟩ 2 9 rfl rfl rfl rfl

-- ===== Shutdown behaviour =========================================================

/-- A step that lowers the live-worker count can only be a worker exit, which
the loop permits exactly when shutdown has been requested and the queue is
empty. -/
theorem poolStep_workers_lt_exit {s s₂ : PoolState} (h : PoolStep s s₂)
    (hlt : s₂.activeWorkers < s.activeWorkers) : exitCondition s := by
  cases h with
  | submit t hfresh => exact absurd hlt (lt_irrefl _)
  | dequeue t rest hq hworker => exact absurd hlt (lt_irrefl _)
  | stop => exact absurd hlt (lt_irrefl _)
  | exitWorker hexit hworker => exact hexit

/-- The dequeue log only grows along pool steps. -/
theorem poolStep_dequeued_mono {s s₂ : PoolState} (h : PoolStep s s₂) (t : Nat)
    (hd : t ∈ s.dequeued) : t ∈ s₂.dequeued := by
  cases h with
  | submit u hfresh => exact hd
  | dequeue u rest hq hworker => exact List.mem_append_left _ hd
  | stop => exact hd
  | exitWorker hexit hworker => exact hd

/-- C9. Shutdown behaviour: `stopProcessing` sets the shutdown flag and is
idempotent (a second call is a no-op); a worker exits its loop only when
shutdown is requested and the queue is empty (any step that lowers the worker
count satisfies the exit condition); and after shutdown every task that was
still queued is dequeued before any worker exits — in particular before the
last worker terminates. -/
theorem shutdown_idempotent_drains_queue :
    (∀ s, (stopProcessing s).shutdown = true) ∧
    (∀ s, stopProcessing (stopProcessing s) = stopProcessing s) ∧
    (∀ s s₂, PoolStep s s₂ → s₂.activeWorkers < s.activeWorkers → exitCondition s) ∧
    (∀ s s₁ s₂ t, s.shutdown = true → t ∈ s.pending → PoolReaches s s₁ →
      PoolStep s₁ s₂ → s₂.activeWorkers < s₁.activeWorkers → t ∈ s₂.dequeued) := by
  refine ⟨?_, ?_, ?_, ?_⟩
  · intro s
    by_cases hs : s.shutdown <;> simp [stopProcessing, hs]
  · intro s
    by_cases hs : s.shutdown <;> simp [stopProcessing, hs]
  · intro s s₂ hstep hlt
    exact poolStep_workers_lt_exit hstep hlt
  · intro s s₁ s₂ t hsd htp hreach hstep hlt
    have hexit := poolStep_workers_lt_exit hstep hlt
    rcases poolReaches_conserves_mem hreach t (Or.inl htp) with hp | hd
    · rw [hexit.2] at hp
      exact absurd hp (List.not_mem_nil t)
    · exact poolStep_dequeued_mono hstep t hd

/-- C9 witness: requesting shutdown on a fresh pool sets the flag idempotently,
and a pool shut down with task 5 still queued dequeues it before its single
worker exits. -/
theorem shutdown_idempotent_drains_queue_witness :
    (stopProcessing (initState 2)).shutdown = true ∧
    stopProcessing (stopProcessing (initState 2)) = stopProcessing (initState 2) ∧
    (5 : Nat) ∈ ([5] : List Nat) :=
  ⟨shutdown_idempotent_drains_queue.1 (initState 2),
   shutdown_idempotent_drains_queue.2.1 (initState 2),
   shutdown_idempotent_drains_queue.2.2.2
     { pending := [5], shutdown := true, submitted := [5], dequeued := [],
       activeWorkers := 1 }
     { pending := [], shutdown := true, submitted := [5], dequeued := [5],
       activeWorkers := 1 }
     { pending := [], shutdown := true, submitted := [5], dequeued := [5],
       activeWorkers := 0 }
     5 rfl (by decide)
     (Relation.ReflTransGen.single (PoolStep.dequeue _ 5 [] rfl (by decide)))
     (PoolStep.exitWorker _ ⟨rfl, rfl⟩ (by decide)) (by decide)⟩
